import Mathlib

/-!
Verification of the shift-assignment optimization engine of
`Shift_optimizer.py` (class `ShiftOptimizerV3_2`, method `optimize_shifts`).

The engine builds a CP-SAT model over boolean variables
`shifts[(e, d, s)]` for employee `e`, day `d` and shift index
`s ∈ {0 = 早番 (early), 1 = 遅番 (late), 2 = 休み (rest)}`.
We embed a candidate variable valuation as a function
`x : ℕ → ℕ → ℕ → Bool`, the constraint set as a predicate `feasible`,
the objective as a function on valuations, and the post-solve
extraction/statistics code as explicit functions on the solved valuation.
A successful solve (status OPTIMAL or FEASIBLE) returns a valuation that
satisfies every posted constraint, i.e. a valuation with `feasible`.
-/

namespace ShiftOptimizerV32

/-- `num_shifts = 3` in `optimize_shifts`. -/
def numShifts : ℕ := 3

/-- Sum of the three shift booleans of one (employee, day) cell, mirroring
`sum(shifts[(e, d, s)] for s in range(num_shifts))` (line 147). -/
def cellSum (x : ℕ → ℕ → ℕ → Bool) (e d : ℕ) : ℕ :=
  ((List.range numShifts).map (fun s => (x e d s).toNat)).sum

/-- Exclusivity constraints (line 147): each (employee, day) has exactly one
shift chosen. -/
def exclusivityOK (E D : ℕ) (x : ℕ → ℕ → ℕ → Bool) : Prop :=
  ∀ e < E, ∀ d < D, cellSum x e d = 1

/-- Number of employees assigned shift `s` on day `d`, mirroring
`sum(shifts[(e, d, s)] for e in range(num_employees))` (lines 150-151). -/
def dayShiftSum (E : ℕ) (x : ℕ → ℕ → ℕ → Bool) (d s : ℕ) : ℕ :=
  ((List.range E).map (fun e => (x e d s).toNat)).sum

/-- Coverage constraints (lines 149-151): on each day at least one early
(s = 0) and at least one late (s = 1) assignment. -/
def coverageOK (E D : ℕ) (x : ℕ → ℕ → ℕ → Bool) : Prop :=
  ∀ d < D, 1 ≤ dayShiftSum E x d 0 ∧ 1 ≤ dayShiftSum E x d 1

/-- No-clopening constraints (lines 153-155):
`shifts[(e, d, 1)] + shifts[(e, d + 1, 0)] <= 1` for `d in range(num_days - 1)`. -/
def noClopeningOK (E D : ℕ) (x : ℕ → ℕ → ℕ → Bool) : Prop :=
  ∀ e < E, ∀ d < D - 1, (x e d 1).toNat + (x e (d + 1) 0).toNat ≤ 1

/-- Rest-day count of employee `e`, mirroring
`rest_count = sum(shifts[(e, d, 2)] for d in range(num_days))` (line 158). -/
def restCount (D : ℕ) (x : ℕ → ℕ → ℕ → Bool) (e : ℕ) : ℕ :=
  ((List.range D).map (fun d => (x e d 2).toNat)).sum

/-- Rest-band constraints (lines 157-160): `rest_count >= 9` and
`rest_count <= 11`, with the literal constants 9 and 11. -/
def restBandOK (E D : ℕ) (x : ℕ → ℕ → ℕ → Bool) : Prop :=
  ∀ e < E, 9 ≤ restCount D x e ∧ restCount D x e ≤ 11

/-- The full hard-constraint set posted by `optimize_shifts`
(lines 145-160).  A valuation returned by a successful solve
(status OPTIMAL or FEASIBLE) satisfies all of these. -/
def feasible (E D : ℕ) (x : ℕ → ℕ → ℕ → Bool) : Prop :=
  exclusivityOK E D x ∧ coverageOK E D x ∧ noClopeningOK E D x ∧ restBandOK E D x

instance (E D : ℕ) (x : ℕ → ℕ → ℕ → Bool) : Decidable (feasible E D x) := by
  unfold feasible exclusivityOK coverageOK noClopeningOK restBandOK
  infer_instance

/-- Concrete witness valuation for 3 employees over a 28-day month:
employee 0 rests on days 0-8, employee 1 on days 9-17, employee 2 on
days 18-26; early duty goes to employee 1 on days 0-8 and employee 0
afterwards; late duty goes to employee 2 on days 0-17, employee 1 on
days 18-26, and employees 1 and 2 on day 27. -/
def earlyWit (e d : ℕ) : Bool :=
  decide ((d < 9 ∧ e = 1) ∨ (9 ≤ d ∧ e = 0))

def lateWit (e d : ℕ) : Bool :=
  decide ((d < 18 ∧ e = 2) ∨ (18 ≤ d ∧ d < 27 ∧ e = 1) ∨ (d = 27 ∧ e ≠ 0))

def restWit (e d : ℕ) : Bool :=
  decide (9 * e ≤ d ∧ d < 9 * e + 9)

def xWit (e d s : ℕ) : Bool :=
  if s = 0 then earlyWit e d
  else if s = 1 then lateWit e d
  else if s = 2 then restWit e d
  else false

/-- Preference lookup `preferences[emp_name][d]` (lines 166 and 195).
Python raises IndexError past the end of the list; the default `""`
is only reachable in that situation (see `objectiveLoop` for the
pre-solve abort it causes) and matches no scoring branch. -/
def prefAt (preferences : String → List String) (name : String) (d : ℕ) : String :=
  (preferences name).getD d ""

/-- Total value of the objective terms appended for one (employee, day)
cell, mirroring the `if/elif` chain of lines 167-172: `早番` preference
contributes `20 * early`, `遅番` contributes `20 * late`, a preference in
`['希望休', '有給', '半休']` contributes `30 * rest`, `どちらでも`
contributes `5 * early + 5 * late`, anything else contributes nothing. -/
def prefTermValue (pref : String) (early late rest : Bool) : ℕ :=
  if pref = "早番" then 20 * early.toNat
  else if pref = "遅番" then 20 * late.toNat
  else if pref ∈ ["希望休", "有給", "半休"] then 30 * rest.toNat
  else if pref = "どちらでも" then 5 * early.toNat + 5 * late.toNat
  else 0

/-- The objective `sum(objective_terms)` maximized at line 179, as a
function of the shift valuation. -/
def objectiveValue (employees : List String) (preferences : String → List String)
    (D : ℕ) (x : ℕ → ℕ → ℕ → Bool) : ℕ :=
  ((List.range employees.length).map (fun e =>
    ((List.range D).map (fun d =>
      prefTermValue (prefAt preferences (employees.getD e "") d)
        (x e d 0) (x e d 1) (x e d 2))).sum)).sum

/-- The per-(employee, day) contribution as the specification words it:
20 if the preference is early and early is assigned; 20 if late and late
is assigned; 30 if rest-requested, paid-leave or half-day and rest is
assigned; 5 if no-preference and early is assigned plus 5 if late is
assigned; 0 otherwise.  Written from the spec, to be compared with
`prefTermValue` taken from the source. -/
def specPairScore (pref : String) (early late rest : Bool) : ℕ :=
  (if pref = "早番" ∧ early = true then 20 else 0) +
  (if pref = "遅番" ∧ late = true then 20 else 0) +
  (if (pref = "希望休" ∨ pref = "有給" ∨ pref = "半休") ∧ rest = true then 30 else 0) +
  (if pref = "どちらでも" ∧ early = true then 5 else 0) +
  (if pref = "どちらでも" ∧ late = true then 5 else 0)

/-- The objective as the specification describes it: the sum of
`specPairScore` over all (employee, day) pairs. -/
def specObjectiveValue (employees : List String) (preferences : String → List String)
    (D : ℕ) (x : ℕ → ℕ → ℕ → Bool) : ℕ :=
  ((List.range employees.length).map (fun e =>
    ((List.range D).map (fun d =>
      specPairScore (prefAt preferences (employees.getD e "") d)
        (x e d 0) (x e d 1) (x e d 2))).sum)).sum

/-- `self.target_rest_days = 10` (line 37). -/
def target_rest_days : ℕ := 10

/-- The soft-target constraints of lines 174-177: for each employee a
fresh boolean `b e` (`model.NewBoolVar(f'obj_e{e}')`) half-reifies
`rest_count == target_rest_days`: the equation is enforced only when
`b e` is true, and `b e` occurs nowhere else in the model. -/
def softTargetOK (E D : ℕ) (x : ℕ → ℕ → ℕ → Bool) (b : ℕ → Bool) : Prop :=
  ∀ e < E, b e = true → restCount D x e = target_rest_days

/-- Feasibility of the full model including lines 174-177, projected onto
the shift variables: some valuation of the indicator booleans satisfies
the half-reified equations alongside all hard constraints. -/
def feasibleWithSoft (E D : ℕ) (x : ℕ → ℕ → ℕ → Bool) : Prop :=
  ∃ b : ℕ → Bool, feasible E D x ∧ softTargetOK E D x b

/-- The objective of the model including lines 174-177, as a function of
the shift valuation and the indicator booleans.  The indicators occur in
no objective term in the source (the objective is built entirely at
lines 162-172), so this function does not read `b`. -/
def objectiveValueWithSoft (employees : List String) (preferences : String → List String)
    (D : ℕ) (x : ℕ → ℕ → ℕ → Bool) (b : ℕ → Bool) : ℕ :=
  objectiveValue employees preferences D x

/-- The first shift index with value 1 in the extraction loop
`for s in range(num_shifts): if solver.Value(shifts[(e, d, s)]) == 1`
(lines 192-193, with the `break` at line 200). -/
def firstAssigned (x : ℕ → ℕ → ℕ → Bool) (e d : ℕ) : Option ℕ :=
  (List.range numShifts).find? (fun s => x e d s)

/-- The label appended for a found shift index `s` (lines 194-199): for
`s = 2` the original preference `orig` selects `'有給'`, `'半休'` or the
generic `'休み'`; otherwise the label is `['早番', '遅番', '休み'][s]`. -/
def resolveCell (orig : String) (s : ℕ) : String :=
  if s = 2 then
    (if orig = "有給" then "有給" else if orig = "半休" then "半休" else "休み")
  else ["早番", "遅番", "休み"].getD s ""

/-- The label recorded for one (employee, day) cell: the resolved label of
the first shift index holding, or nothing when no index holds (in which
case the loop of lines 192-200 appends nothing). -/
def cellLabel (orig : String) (x : ℕ → ℕ → ℕ → Bool) (e d : ℕ) : Option String :=
  (firstAssigned x e d).map (resolveCell orig)

/-- `result[emp_name]` (lines 190-200): the day-ordered list of resolved
labels of employee `e`, where `prefRow` is `preferences[emp_name]`. -/
def resultRow (prefRow : List String) (x : ℕ → ℕ → ℕ → Bool) (e D : ℕ) : List String :=
  (List.range D).filterMap (fun d => cellLabel (prefRow.getD d "") x e d)

/-- The per-employee statistics of lines 202-206, computed from the
employee's resolved label list `counts = result[emp_name]`:
`(counts.count('早番'), counts.count('遅番'),
counts.count('休み') + counts.count('有給') + counts.count('半休') * 0.5)`. -/
def employeeStats (row : List String) : ℕ × ℕ × ℚ :=
  (row.count "早番", row.count "遅番",
    (row.count "休み" : ℚ) + (row.count "有給" : ℚ) + (row.count "半休" : ℚ) * (1 / 2))

/-- Concrete resolved-label row: 8 full rest days, 4 half-days, 16 early days. -/
def rowWit : List String :=
  List.replicate 8 "休み" ++ List.replicate 4 "半休" ++ List.replicate 16 "早番"

/-- Where the pre-solve part of `optimize_shifts` ends up: either control
reaches `solver.Solve(model)` (line 183), or a Python `IndexError` is
raised first.  The source defines no `ModelBuildError` and contains no
validation of employee-name uniqueness or of `num_days >= 1`. -/
inductive EnginePhase
  | solveReached
  | raisedIndexError
deriving DecidableEq

/-- Whether every access `row[d]` for `d in range(D)` stays in bounds. -/
def perDayAccessOK (row : List String) (D : ℕ) : Bool :=
  (List.range D).all (fun d => decide (d < row.length))

/-- The objective-construction loop of lines 164-172 walks employees in
order and reads `preferences[emp_name][d]` for every `d in
range(num_days)`; the first out-of-range access raises `IndexError`,
aborting the call before `solver.Solve` and producing no result.  The
constraint-posting code (lines 145-160) never reads `preferences`, so
this loop is the only pre-solve failure point for an in-memory request. -/
def objectiveLoop (names : List String) (preferences : String → List String)
    (D : ℕ) : EnginePhase :=
  match names with
  | [] => .solveReached
  | n :: rest =>
    if perDayAccessOK (preferences n) D then objectiveLoop rest preferences D
    else .raisedIndexError

/-- The solver statuses `optimize_shifts` distinguishes at line 185:
only `OPTIMAL` and `FEASIBLE` are success. -/
inductive CpStatus
  | optimal
  | feasible
  | infeasible
  | modelInvalid
  | unknown
deriving DecidableEq

/-- `status in [cp_model.OPTIMAL, cp_model.FEASIBLE]` (line 185). -/
def isSuccess : CpStatus → Bool
  | .optimal => true
  | .feasible => true
  | _ => false

/-- The post-solve branch of lines 185-212: on success the extracted
result/statistics bundle is returned, otherwise `return None, None` —
no partial or best-effort bundle exists on a non-success status. -/
def postSolve {α : Type} (st : CpStatus) (extract : Unit → α) : Option α :=
  if isSuccess st then some (extract ()) else none

/-- The all-false valuation, used to instantiate infeasibility theorems. -/
def xNone : ℕ → ℕ → ℕ → Bool := fun _ _ _ => false

/-- A shift boolean contributing to a sum bounded by 1-or-more forces a
witness index: if the sum of `(f i).toNat` over `i < n` is at least 1,
some `i < n` has `f i = true`. -/
lemma exists_true_of_sum_pos {n : ℕ} {f : ℕ → Bool}
    (h : 1 ≤ ((List.range n).map (fun i => (f i).toNat)).sum) :
    ∃ i, i < n ∧ f i = true := by
  by_contra hc
  push_neg at hc
  have hz : ((List.range n).map (fun i => (f i).toNat)).sum = 0 := by
    apply List.sum_eq_zero
    intro m hm
    simp only [List.mem_map, List.mem_range] at hm
    obtain ⟨i, hi, rfl⟩ := hm
    have hfi := hc i hi
    simp [Bool.not_eq_true] at hfi
    simp [hfi]
  omega

/-- Claim C1: every feasible valuation (hence every successful solve, whose
returned valuation satisfies all posted constraints) gives each employee a
rest-day count in the closed interval [9, 11]; the bounds are the literal
constants 9 and 11, stated for every `D` (no dependence on the month length). -/
theorem claimC1_rest_band (E D : ℕ) (x : ℕ → ℕ → ℕ → Bool)
    (hx : feasible E D x) (e : ℕ) (he : e < E) :
    9 ≤ restCount D x e ∧ restCount D x e ≤ 11 :=
  hx.2.2.2 e he

/-- Witness for C1 at the concrete 3-employee, 28-day valuation `xWit`. -/
theorem claimC1_rest_band_witness :
    feasible 3 28 xWit ∧ (9 ≤ restCount 28 xWit 0 ∧ restCount 28 xWit 0 ≤ 11) :=
  ⟨by decide, claimC1_rest_band 3 28 xWit (by decide) 0 (by decide)⟩

/-- Claim C2: every feasible valuation assigns, on every day, the early
shift (s = 0) to at least one employee and the late shift (s = 1) to at
least one employee. -/
theorem claimC2_coverage (E D : ℕ) (x : ℕ → ℕ → ℕ → Bool)
    (hx : feasible E D x) (d : ℕ) (hd : d < D) :
    (∃ e, e < E ∧ x e d 0 = true) ∧ (∃ e, e < E ∧ x e d 1 = true) := by
  have h0 := (hx.2.1 d hd).1
  have h1 := (hx.2.1 d hd).2
  simp only [dayShiftSum] at h0 h1
  exact ⟨exists_true_of_sum_pos h0, exists_true_of_sum_pos h1⟩

/-- Witness for C2 at the concrete valuation `xWit`, day 0. -/
theorem claimC2_coverage_witness :
    feasible 3 28 xWit ∧
      ((∃ e, e < 3 ∧ xWit e 0 0 = true) ∧ (∃ e, e < 3 ∧ xWit e 0 1 = true)) :=
  ⟨by decide, claimC2_coverage 3 28 xWit (by decide) 0 (by decide)⟩

/-- Claim C3: in every feasible valuation, no employee works the late shift
on day `d` and the early shift on day `d + 1`, for any consecutive pair of
days in the month. -/
theorem claimC3_no_clopening (E D : ℕ) (x : ℕ → ℕ → ℕ → Bool)
    (hx : feasible E D x) (e : ℕ) (he : e < E) (d : ℕ) (hd : d + 1 < D) :
    ¬(x e d 1 = true ∧ x e (d + 1) 0 = true) := by
  rintro ⟨h1, h2⟩
  have hc := hx.2.2.1 e he d (by omega)
  rw [h1, h2] at hc
  simp at hc

/-- Witness for C3 at the concrete valuation `xWit`, employee 2, days 5-6. -/
theorem claimC3_no_clopening_witness :
    feasible 3 28 xWit ∧ ¬(xWit 2 5 1 = true ∧ xWit 2 6 0 = true) :=
  ⟨by decide, claimC3_no_clopening 3 28 xWit (by decide) 2 (by decide) 5 (by decide)⟩

/-- The source's `if/elif` scoring chain for one cell equals the
specification's additive per-pair contribution. -/
lemma prefTermValue_eq_specPairScore (p : String) (a b c : Bool) :
    prefTermValue p a b c = specPairScore p a b c := by
  rcases Decidable.em (p = "早番") with h1 | h1
  · subst h1; cases a <;> cases b <;> cases c <;> decide
  rcases Decidable.em (p = "遅番") with h2 | h2
  · subst h2; cases a <;> cases b <;> cases c <;> decide
  rcases Decidable.em (p = "希望休") with h3 | h3
  · subst h3; cases a <;> cases b <;> cases c <;> decide
  rcases Decidable.em (p = "有給") with h4 | h4
  · subst h4; cases a <;> cases b <;> cases c <;> decide
  rcases Decidable.em (p = "半休") with h5 | h5
  · subst h5; cases a <;> cases b <;> cases c <;> decide
  rcases Decidable.em (p = "どちらでも") with h6 | h6
  · subst h6; cases a <;> cases b <;> cases c <;> decide
  simp [prefTermValue, specPairScore, h1, h2, h3, h4, h5, h6]

/-- Claim C4: the objective maximized at line 179 equals the sum over all
(employee, day) pairs of the contribution table the specification states
(20 for a satisfied early or late preference, 30 for a satisfied
rest-type preference, 5 + 5 for a no-preference cell on early and late,
0 in every other case).  Both sides are natural numbers, so no negative
penalty term exists anywhere in the objective. -/
theorem claimC4_objective_matches_spec (employees : List String)
    (preferences : String → List String) (D : ℕ) (x : ℕ → ℕ → ℕ → Bool) :
    objectiveValue employees preferences D x =
      specObjectiveValue employees preferences D x := by
  simp only [objectiveValue, specObjectiveValue, prefTermValue_eq_specPairScore]

/-- Claim C5: the soft-target construct of lines 174-177 has no effect on
the model.  Projected onto the shift variables, the feasible set of the
model with the half-reified `rest_count == 10` equations is exactly the
feasible set of the model without them (take every indicator false), and
the objective value of every assignment is unchanged (the indicators
occur in no objective term). -/
theorem claimC5_soft_target_inert (E D : ℕ) (x : ℕ → ℕ → ℕ → Bool) :
    (feasibleWithSoft E D x ↔ feasible E D x) ∧
      ∀ (employees : List String) (preferences : String → List String) (b : ℕ → Bool),
        objectiveValueWithSoft employees preferences D x b =
          objectiveValue employees preferences D x := by
  refine ⟨⟨fun h => h.choose_spec.1, fun hf => ⟨fun _ => false, hf, ?_⟩⟩, ?_⟩
  · intro e he hb
    simp at hb
  · intro employees preferences b
    rfl

/-- The cell sum is the sum of the three shift booleans. -/
lemma cellSum_expand (x : ℕ → ℕ → ℕ → Bool) (e d : ℕ) :
    cellSum x e d = (x e d 0).toNat + (x e d 1).toNat + (x e d 2).toNat := by
  have h : List.range numShifts = [0, 1, 2] := rfl
  rw [cellSum, h]
  simp
  omega

/-- Under the exclusivity constraint, a holding shift index forces the
other two to be false. -/
lemma exclusive_unique (x : ℕ → ℕ → ℕ → Bool) (e d : ℕ)
    (h : cellSum x e d = 1) :
    (x e d 0 = true → x e d 1 = false ∧ x e d 2 = false) ∧
      (x e d 1 = true → x e d 0 = false ∧ x e d 2 = false) ∧
      (x e d 2 = true → x e d 0 = false ∧ x e d 1 = false) := by
  rw [cellSum_expand] at h
  cases h0 : x e d 0 <;> cases h1 : x e d 1 <;> cases h2 : x e d 2 <;> simp_all

/-- Computation of the first holding shift index. -/
lemma firstAssigned_expand (x : ℕ → ℕ → ℕ → Bool) (e d : ℕ) :
    firstAssigned x e d =
      if x e d 0 then some 0 else if x e d 1 then some 1
      else if x e d 2 then some 2 else none := by
  have h : List.range numShifts = [0, 1, 2] := rfl
  rw [firstAssigned, h]
  cases h0 : x e d 0 <;> cases h1 : x e d 1 <;> cases h2 : x e d 2 <;>
    simp [List.find?, h0, h1, h2]

/-- Claim C6: under the exclusivity of any feasible valuation, the label
recorded for a cell is `'早番'` when the early variable holds, `'遅番'`
when the late variable holds, and for a holding rest variable it is
`'有給'` when the original preference `orig` was `'有給'`, `'半休'` when
it was `'半休'`, and the generic `'休み'` in every other case. -/
theorem claimC6_resolved_labels (E D : ℕ) (x : ℕ → ℕ → ℕ → Bool)
    (hx : feasible E D x) (e : ℕ) (he : e < E) (d : ℕ) (hd : d < D)
    (orig : String) :
    (x e d 0 = true → cellLabel orig x e d = some "早番") ∧
      (x e d 1 = true → cellLabel orig x e d = some "遅番") ∧
      (x e d 2 = true →
        (orig = "有給" → cellLabel orig x e d = some "有給") ∧
        (orig = "半休" → cellLabel orig x e d = some "半休") ∧
        (orig ≠ "有給" → orig ≠ "半休" → cellLabel orig x e d = some "休み")) := by
  have hcell := hx.1 e he d hd
  have huniq := exclusive_unique x e d hcell
  refine ⟨fun h0 => ?_, fun h1 => ?_, fun h2 => ?_⟩
  · simp [cellLabel, firstAssigned_expand, h0, resolveCell]
  · have hf := huniq.2.1 h1
    simp [cellLabel, firstAssigned_expand, h1, hf.1, resolveCell]
  · have hf := huniq.2.2 h2
    refine ⟨fun ho => ?_, fun ho => ?_, fun ho1 ho2 => ?_⟩
    · simp [cellLabel, firstAssigned_expand, h2, hf.1, hf.2, resolveCell, ho]
    · subst ho
      simp [cellLabel, firstAssigned_expand, h2, hf.1, hf.2, resolveCell]
    · simp [cellLabel, firstAssigned_expand, h2, hf.1, hf.2, resolveCell, ho1, ho2]

/-- Witness for C6 at `xWit`: employee 1 rests on day 9; with original
preference `'希望休'` the recorded label is the generic `'休み'`. -/
theorem claimC6_resolved_labels_witness :
    feasible 3 28 xWit ∧ xWit 1 9 2 = true ∧
      cellLabel "希望休" xWit 1 9 = some "休み" :=
  ⟨by decide, by decide,
    ((claimC6_resolved_labels 3 28 xWit (by decide) 1 (by decide) 9 (by decide)
      "希望休").2.2 (by decide)).2.2 (by decide) (by decide)⟩

/-- Claim C7: the statistics of lines 202-206 are a pure function of the
employee's resolved label list — early count is the number of `'早番'`
labels, late count the number of `'遅番'` labels, weighted rest total is
`count('休み') + count('有給') + 0.5 * count('半休')` — and a row with 8
full rest days and 4 half-days has weighted rest total exactly 10. -/
theorem claimC7_stats (row : List String) (h1 : row.count "休み" = 8)
    (h2 : row.count "有給" = 0) (h3 : row.count "半休" = 4) :
    employeeStats row = (row.count "早番", row.count "遅番", (10 : ℚ)) := by
  simp [employeeStats, h1, h2, h3]
  norm_num

/-- Witness for C7 at the concrete row with 8 `'休み'`, 4 `'半休'` and
16 `'早番'` labels. -/
theorem claimC7_stats_witness :
    rowWit.count "休み" = 8 ∧ rowWit.count "有給" = 0 ∧ rowWit.count "半休" = 4 ∧
      employeeStats rowWit = (rowWit.count "早番", rowWit.count "遅番", (10 : ℚ)) :=
  ⟨by decide, by decide, by decide,
    claimC7_stats rowWit (by decide) (by decide) (by decide)⟩

/-- In-bounds access for all of `range(D)` is exactly `D ≤ row.length`. -/
lemma perDayAccessOK_iff (row : List String) (D : ℕ) :
    perDayAccessOK row D = true ↔ D ≤ row.length := by
  simp only [perDayAccessOK, List.all_eq_true, List.mem_range,
    decide_eq_true_eq]
  constructor
  · intro h
    by_contra hc
    push_neg at hc
    exact absurd (h row.length (by omega)) (by omega)
  · intro h d hd
    omega

/-- Claim C8 (amended): the pre-solve phase of `optimize_shifts` reaches
`solver.Solve` exactly when every listed employee's preference row has
length at least `num_days`; otherwise it aborts with an untyped Python
`IndexError` during objective construction.  No `ModelBuildError` exists,
and neither duplicate names nor `num_days < 1` prevents the solve. -/
theorem claimC8_no_validation (names : List String)
    (preferences : String → List String) (D : ℕ) :
    objectiveLoop names preferences D = EnginePhase.solveReached ↔
      ∀ n ∈ names, D ≤ (preferences n).length := by
  induction names with
  | nil => simp [objectiveLoop]
  | cons n rest ih =>
    by_cases h : perDayAccessOK (preferences n) D = true
    · have hn := (perDayAccessOK_iff _ _).1 h
      simp [objectiveLoop, h, ih, hn]
    · have hn : ¬ D ≤ (preferences n).length :=
        fun hc => h ((perDayAccessOK_iff _ _).2 hc)
      simp [objectiveLoop, h, hn]

/-- Counterexample to C8 as stated: the request with employee list
`["A", "A"]` (names not unique), `num_days = 0 < 1` and empty preference
rows reaches the solve stage — the engine raises no `ModelBuildError`
(none exists) and does not fail before the solve is attempted. -/
theorem claimC8_counterexample :
    ¬ (["A", "A"] : List String).Nodup ∧ (0 : ℕ) < 1 ∧
      objectiveLoop ["A", "A"] (fun _ => []) 0 = EnginePhase.solveReached :=
  ⟨by decide, by decide, rfl⟩

/-- `dayShiftSum` over a single employee. -/
lemma daySum_one (x : ℕ → ℕ → ℕ → Bool) (d s : ℕ) :
    dayShiftSum 1 x d s = (x 0 d s).toNat := by
  have h : List.range 1 = [0] := rfl
  simp [dayShiftSum, h]

/-- `dayShiftSum` over two employees. -/
lemma daySum_two (x : ℕ → ℕ → ℕ → Bool) (d s : ℕ) :
    dayShiftSum 2 x d s = (x 0 d s).toNat + (x 1 d s).toNat := by
  have h : List.range 2 = [0, 1] := rfl
  simp [dayShiftSum, h]

/-- Claim C9: with a single employee and `num_days ≥ 2` (in particular the
concrete 1-employee, 3-day, all-`'どちらでも'` request) no valuation
satisfies the posted constraints — the model is infeasible, so a sound
solver cannot report OPTIMAL or FEASIBLE — and on every non-success
status the engine returns `None` (no partial or best-effort result). -/
theorem claimC9_one_employee_infeasible (D : ℕ) (hD : 2 ≤ D)
    (x : ℕ → ℕ → ℕ → Bool) (st : CpStatus) {α : Type} (extract : Unit → α)
    (hst : isSuccess st = false) :
    ¬ feasible 1 D x ∧ postSolve st extract = none := by
  constructor
  · rintro ⟨hex, hcov, -, -⟩
    have h0 : (0 : ℕ) < D := by omega
    have hc := hcov 0 h0
    simp only [daySum_one] at hc
    have hsum := hex 0 (by omega) 0 h0
    rw [cellSum_expand] at hsum
    omega
  · simp [postSolve, hst]

/-- Witness for C9 at `D = 3`, the all-false valuation, and status
INFEASIBLE. -/
theorem claimC9_one_employee_infeasible_witness :
    (2 : ℕ) ≤ 3 ∧ isSuccess CpStatus.infeasible = false ∧
      (¬ feasible 1 3 xNone ∧
        postSolve CpStatus.infeasible (fun _ => (0 : ℕ)) = none) :=
  ⟨by decide, by decide,
    claimC9_one_employee_infeasible 3 (by decide) xNone CpStatus.infeasible
      (fun _ => (0 : ℕ)) (by decide)⟩

/-- Claim C10: with fewer than 3 employees and at least one day, the
constraint model admits no valuation at all: 0 employees cannot cover
early duty; 1 employee cannot be both early and late on a day; with 2
employees the rest lower bound of 9 forces a rest day for employee 0, on
which the lone remaining employee would have to be early and late at
once. -/
theorem claimC10_too_few_employees_infeasible (E D : ℕ) (hE : E < 3)
    (hD : 1 ≤ D) (x : ℕ → ℕ → ℕ → Bool) : ¬ feasible E D x := by
  rintro ⟨hex, hcov, -, hrest⟩
  interval_cases E
  · have hc := (hcov 0 (by omega)).1
    simp [dayShiftSum] at hc
  · have hc := hcov 0 (by omega)
    simp only [daySum_one] at hc
    have hsum := hex 0 (by omega) 0 (by omega)
    rw [cellSum_expand] at hsum
    omega
  · have hr := (hrest 0 (by omega)).1
    have hpos : 1 ≤ ((List.range D).map (fun d => (x 0 d 2).toNat)).sum := by
      have hr2 : 9 ≤ ((List.range D).map (fun d => (x 0 d 2).toNat)).sum := hr
      omega
    obtain ⟨d, hd, hrd⟩ := exists_true_of_sum_pos hpos
    have hsum0 := hex 0 (by omega) d hd
    have hsum1 := hex 1 (by omega) d hd
    rw [cellSum_expand] at hsum0 hsum1
    have ht : (x 0 d 2).toNat = 1 := by simp [hrd]
    have hc := hcov d hd
    rw [daySum_two, daySum_two] at hc
    omega

/-- Witness for C10 at 2 employees, 1 day, the all-false valuation. -/
theorem claimC10_too_few_employees_infeasible_witness :
    (2 : ℕ) < 3 ∧ (1 : ℕ) ≤ 1 ∧ ¬ feasible 2 1 xNone :=
  ⟨by decide, by decide,
    claimC10_too_few_employees_infeasible 2 1 (by decide) (by decide) xNone⟩

end ShiftOptimizerV32
